import Mathlib

/-!
Shallow embedding of the order/payment/chat workflow of a supplement-store
web application (Next.js + Supabase + Stripe), together with theorems
checking the natural-language specification against the code.

Monetary amounts are modelled as exact rationals (`ℚ`); JavaScript's
`x || d` defaulting on possibly-missing numeric/string fields is modelled
explicitly on `Option` values.  Row ids generated by the store are passed
in as parameters.  Calls to the external store that can fail are given an
explicit success flag parameter, mirroring the `error` result the code
inspects (or ignores) after each call.
-/

namespace SupplementStore

/-- Order status enum, from the `order_status` SQL type:
`('pending', 'processing', 'shipped', 'delivered', 'cancelled')`. -/
inductive OrderStatus where
  | pending
  | processing
  | shipped
  | delivered
  | cancelled
deriving DecidableEq, Repr

/-- A row of the `products` table (the fields the workflow reads). -/
structure ProductRow where
  id : String
  price : ℚ
  stock_quantity : Nat
  is_active : Bool
deriving DecidableEq, Repr

/-- A row of the `orders` table (the fields the workflow reads/writes). -/
structure OrderRow where
  id : String
  customer_id : String
  status : OrderStatus
  total_amount : ℚ
  shipping_address : String
deriving DecidableEq, Repr

/-- A row of the `order_items` table.  The checkout handler fills
`product_id` from `item.product?.id`, which can be absent, hence `Option`.
Quantities are JavaScript numbers, modelled as `ℚ`. -/
structure OrderItemRow where
  order_id : String
  product_id : Option String
  quantity : ℚ
  unit_price : ℚ
deriving DecidableEq, Repr

/-- A row of the `payments` table (the fields the webhook writes). -/
structure PaymentRow where
  order_id : String
  amount : ℚ
  payment_method : String
  transaction_id : String
  status : String
deriving DecidableEq, Repr

/-- The durable state the order/payment workflow touches. -/
structure DB where
  products : List ProductRow
  orders : List OrderRow
  order_items : List OrderItemRow
  payments : List PaymentRow
deriving DecidableEq, Repr

/-- JavaScript truthiness test for a possibly-absent string
(`!s` is true exactly when `s` is `undefined` or `""`). -/
def strFalsy : Option String → Bool
  | none => true
  | some s => s = ""

/-- One element of the `cartItems` array the checkout endpoint receives:
the handler reads `item.product?.id`, `item.product?.price` and
`item.quantity`, each of which can be absent. -/
structure CartItem where
  productId : Option String
  price : Option ℚ
  quantity : Option ℚ
deriving DecidableEq, Repr

/-- `item.product?.price || 0` from the checkout handler. -/
def itemPrice (i : CartItem) : ℚ :=
  match i.price with
  | none => 0
  | some p => if p = 0 then 0 else p

/-- `item.quantity || 1` from the checkout handler (note that a quantity
of `0` is falsy in JavaScript and therefore also defaults to `1`). -/
def itemQty (i : CartItem) : ℚ :=
  match i.quantity with
  | none => 1
  | some q => if q = 0 then 1 else q

/-- `cartItems.reduce((sum, item) => sum + (item.product?.price || 0) *
(item.quantity || 1), 0)` from the checkout handler. -/
def cartTotal (cart : List CartItem) : ℚ :=
  cart.foldl (fun s i => s + itemPrice i * itemQty i) 0

/-- The element of `itemsPayload` built for a cart item in the checkout
handler: `{ order_id, product_id: item.product?.id, quantity:
item.quantity || 1, unit_price: item.product?.price || 0 }`. -/
def payloadRow (orderId : String) (i : CartItem) : OrderItemRow :=
  { order_id := orderId
    product_id := i.productId
    quantity := itemQty i
    unit_price := itemPrice i }

/-- Outcome of the checkout `POST` handler, by HTTP class:
`badRequest` is a 400, `serverError` a 500, and `ok` the 200 carrying the
Stripe session for the given order id. -/
inductive CheckoutResult where
  | badRequest (msg : String)
  | serverError (msg : String)
  | ok (orderId : String)
deriving DecidableEq, Repr

/-- The checkout `POST` handler (`/api/checkout`).  `newOrderId` is the id
the store generates for the inserted order; `orderInsertOk` and
`itemsInsertOk` are the success of the two store inserts the handler
performs in sequence.  Mirrors the source:

1. reject when `cartItems` is empty or `userId` is falsy (400);
2. insert one `orders` row with status `'pending'` and
   `total_amount = cartTotal cartItems` (500 on failure, nothing written);
3. insert one `order_items` row per cart line (500 on failure — the order
   row from step 2 is NOT rolled back);
4. create the external Stripe session and return 200. -/
def checkoutPost (db : DB) (cartItems : List CartItem) (userId : Option String)
    (shippingAddress : Option String) (newOrderId : String)
    (orderInsertOk itemsInsertOk : Bool) : DB × CheckoutResult :=
  if cartItems.isEmpty then
    (db, .badRequest "Cart is empty")
  else if strFalsy userId then
    (db, .badRequest "Missing userId")
  else
    let totalAmount := cartTotal cartItems
    if !orderInsertOk then
      (db, .serverError "Failed to create order")
    else
      let order : OrderRow :=
        { id := newOrderId
          customer_id := userId.getD ""
          status := .pending
          total_amount := totalAmount
          shipping_address := shippingAddress.getD "" }
      let db1 := { db with orders := db.orders ++ [order] }
      let itemsPayload := cartItems.map (payloadRow newOrderId)
      if !itemsInsertOk then
        (db1, .serverError "Failed to create order items")
      else
        ({ db1 with order_items := db1.order_items ++ itemsPayload },
         .ok newOrderId)

/-- `updateOrderStatus(orderId, newStatus)` from the admin orders page:
`supabase.from('orders').update({ status: newStatus }).eq('id', orderId)`.
The update is applied unconditionally to every matching row; there is no
transition check and no existence check (zero matched rows is not an
error at the store layer). -/
def updateOrderStatus (db : DB) (orderId : String) (newStatus : OrderStatus) : DB :=
  { db with
    orders := db.orders.map fun o : OrderRow =>
      if o.id = orderId then { o with status := newStatus } else o }

/-- The status argument the admin orders page passes to
`updateOrderStatus` for an order currently in the given status, read off
the three action buttons in the JSX (`pending → 'processing'`,
`processing → 'shipped'`, `shipped → 'delivered'`); no button is rendered
for `delivered` or `cancelled` orders. -/
def adminStatusButton : OrderStatus → Option OrderStatus
  | .pending => some .processing
  | .processing => some .shipped
  | .shipped => some .delivered
  | .delivered => none
  | .cancelled => none

/-- Modelled from the spec: the transition relation §4.1 describes for
`updateStatus` — `pending→processing→shipped→delivered`, and
`*→cancelled` from any non-terminal state.  Used only to compare the
code's behaviour against the spec's words. -/
def specAllowedTransition : OrderStatus → OrderStatus → Bool
  | .pending, .processing => true
  | .processing, .shipped => true
  | .shipped, .delivered => true
  | .pending, .cancelled => true
  | .processing, .cancelled => true
  | .shipped, .cancelled => true
  | _, _ => false

/-- The fields of a Stripe `checkout.session.completed` session object the
webhook handler reads: `metadata.order_id` (possibly absent),
`amount_total` (possibly null), `payment_status`, and `payment_intent`
(possibly absent). -/
structure StripeSession where
  order_id : Option String
  amount_total : Option ℚ
  payment_status : String
  payment_intent : Option String
  session_id : String
deriving DecidableEq, Repr

/-- A Stripe webhook event, as far as the handler distinguishes them. -/
inductive StripeEvent where
  | checkoutSessionCompleted (s : StripeSession)
  | other
deriving DecidableEq, Repr

/-- Outcome of the webhook `POST` handler: `ok` is the 200
`{ received: true }`, `invalidSignature` the 400 `{ error: 'Invalid
signature' }`. -/
inductive WebhookResult where
  | ok
  | invalidSignature
deriving DecidableEq, Repr

/-- `session.amount_total || 0` from the webhook handler. -/
def sessionAmount (s : StripeSession) : ℚ :=
  match s.amount_total with
  | none => 0
  | some a => if a = 0 then 0 else a

/-- `paymentIntentId || session.id` from the webhook handler. -/
def sessionTxId (s : StripeSession) : String :=
  match s.payment_intent with
  | none => s.session_id
  | some t => if t = "" then s.session_id else t

/-- The `payments` row the webhook handler inserts for a completed
checkout session referencing order `oid`:
`{ order_id, amount: amountTotal / 100, status: paymentStatus === 'paid'
? 'completed' : 'pending', payment_method: 'stripe', transaction_id:
paymentIntentId || session.id }`. -/
def sessionPaymentRow (s : StripeSession) (oid : String) : PaymentRow :=
  { order_id := oid
    amount := sessionAmount s / 100
    payment_method := "stripe"
    transaction_id := sessionTxId s
    status := if s.payment_status = "paid" then "completed" else "pending" }

/-- Insert into the `payments` table.  The handler does not inspect the
insert's error, but the schema declares `transaction_id UNIQUE`, so a row
whose transaction id is already present is rejected by the store and the
table is left unchanged. -/
def insertPayment (ps : List PaymentRow) (p : PaymentRow) : List PaymentRow :=
  if ps.any fun q => q.transaction_id = p.transaction_id then ps else ps ++ [p]

/-- The Stripe webhook `POST` handler (`/api/webhook`).  `sigValid` is the
outcome of `stripe.webhooks.constructEvent` (external HMAC check over the
raw body): when it throws, the handler returns 400 before touching the
store.  For a `checkout.session.completed` event with a truthy
`metadata.order_id` it sets every matching order's status to
`'processing'` (whatever its previous status) and inserts one payment
row; every other event is acknowledged with no effect. -/
def stripeWebhookPost (db : DB) (sigValid : Bool) (event : StripeEvent) :
    DB × WebhookResult :=
  if !sigValid then
    (db, .invalidSignature)
  else
    match event with
    | .other => (db, .ok)
    | .checkoutSessionCompleted s =>
      if strFalsy s.order_id then
        (db, .ok)
      else
        let oid := s.order_id.getD ""
        let db1 := { db with
          orders := db.orders.map fun o : OrderRow =>
            if o.id = oid then { o with status := .processing } else o }
        let db2 := { db1 with
          payments := insertPayment db1.payments (sessionPaymentRow s oid) }
        (db2, .ok)

/-- A row of the `customer_messages` table, as written by the messages
`POST` route. -/
structure CustomerMessageRow where
  customer_id : String
  content : String
deriving DecidableEq, Repr

/-- Outcome of the messages `POST` route. -/
inductive MessagesResult where
  | badRequest
  | serverError
  | ok (m : CustomerMessageRow)
deriving DecidableEq, Repr

/-- The messages `POST` route (`/api/messages`): rejects with 400 when
`customer_id` or `content` is falsy (absent or the empty string — the
check is JavaScript truthiness, not a trimmed-emptiness check), otherwise
inserts the row; `insertOk` is the success of the store insert (500 on
failure). -/
def messagesPost (msgs : List CustomerMessageRow)
    (customer_id content : Option String) (insertOk : Bool) :
    List CustomerMessageRow × MessagesResult :=
  if strFalsy customer_id || strFalsy content then
    (msgs, .badRequest)
  else if !insertOk then
    (msgs, .serverError)
  else
    let row : CustomerMessageRow :=
      { customer_id := customer_id.getD "", content := content.getD "" }
    (msgs ++ [row], .ok row)

/-- A row of the `chat_messages` table, as the chat pages read it.
`created_at` is the timestamp, modelled as a natural number. -/
structure ChatMessageRow where
  id : String
  customer_id : String
  sender_id : String
  sender_role : String
  content : String
  created_at : Nat
deriving DecidableEq, Repr

/-- The admin page's fixed thread page size (`THREAD_PAGE_SIZE = 20`). -/
def THREAD_PAGE_SIZE : Nat := 20

/-- The de-duplication loop of `loadThreads`' fallback path: iterate over
customer ids, keeping the first occurrence of each id not yet in `seen`.
(The loop's early break at `THREAD_PAGE_SIZE` collected ids is modelled
by `List.take THREAD_PAGE_SIZE` at the call site.) -/
def dedupAcc (seen : List String) : List String → List String
  | [] => []
  | c :: rest =>
    if c ∈ seen then dedupAcc seen rest
    else c :: dedupAcc (c :: seen) rest

/-- First-occurrence de-duplication of a list of customer ids. -/
def dedupFirst (l : List String) : List String := dedupAcc [] l

/-- The preferred path of `loadThreads(page)`: query the `chat_threads`
view ordered by `last_message_at` descending with
`range(page*20, page*20+19)`.  Over a message log `ms` already ordered by
`created_at` descending (which is how both paths query the store), the
view's customers-by-most-recent-message-descending order is the
first-occurrence order of customer ids in `ms`; the page is rows
`page*20 .. page*20+19` of that list. -/
def loadThreadsView (ms : List ChatMessageRow) (page : Nat) : List String :=
  (((dedupFirst (ms.map (fun m => m.customer_id))).drop
      (page * THREAD_PAGE_SIZE)).take THREAD_PAGE_SIZE)

/-- The fallback path of `loadThreads(page)`: query `chat_messages`
ordered by `created_at` descending with `range(from, to +
THREAD_PAGE_SIZE)` — rows `page*20 .. page*20+39`, i.e. a window of
`2*THREAD_PAGE_SIZE` messages — then de-duplicate customer ids in order,
stopping after `THREAD_PAGE_SIZE` ids. -/
def loadThreadsFallback (ms : List ChatMessageRow) (page : Nat) : List String :=
  let window := ((ms.drop (page * THREAD_PAGE_SIZE)).take (2 * THREAD_PAGE_SIZE))
  ((dedupFirst (window.map (fun m => m.customer_id))).take THREAD_PAGE_SIZE)

/-- The `INSERT` handler of `subscribeRealtime` (identical in the customer
messages page and the admin messages page): append the delivered message
to the local list unless a message with the same id is already present.
-/
def realtimeInsert (msgs : List ChatMessageRow) (m : ChatMessageRow) :
    List ChatMessageRow :=
  if msgs.any fun x => x.id = m.id then msgs else msgs ++ [m]

/-! ## Helper lemmas -/

theorem cartTotal_go (cart : List CartItem) (a : ℚ) :
    cart.foldl (fun s i => s + itemPrice i * itemQty i) a
      = a + (cart.map fun i => itemPrice i * itemQty i).sum := by
  induction cart generalizing a with
  | nil => simp
  | cons x xs ih => simp [ih, add_assoc]

theorem cartTotal_eq_sum (cart : List CartItem) :
    cartTotal cart = (cart.map fun i => itemPrice i * itemQty i).sum := by
  simpa [cartTotal] using cartTotal_go cart 0

theorem insertPayment_idem (ps : List PaymentRow) (p : PaymentRow) :
    insertPayment (insertPayment ps p) p = insertPayment ps p := by
  unfold insertPayment
  by_cases h : ps.any (fun q => q.transaction_id = p.transaction_id) = true
  · simp [h]
  · simp [h, List.any_append]

/-! ## C3: invalid webhook signature -/

/-- C3: a webhook delivery whose signature fails verification is rejected
with a 400 response and mutates no state: the database (orders and
payments included) is returned unchanged, whatever the event was. -/
theorem webhook_invalid_signature_rejected (db : DB) (ev : StripeEvent) :
    stripeWebhookPost db false ev = (db, .invalidSignature) := rfl

/-! ## C5: webhook replay idempotence -/

/-- C5: processing the same payment-confirmation event a second time
leaves the state exactly as after processing it once — in particular no
second payment row with the same transaction id is created (the
`transaction_id UNIQUE` constraint rejects it) and the referenced order's
final status is the same. -/
theorem webhook_replay_idempotent (db : DB) (ev : StripeEvent) :
    stripeWebhookPost (stripeWebhookPost db true ev).1 true ev
      = ((stripeWebhookPost db true ev).1, .ok) := by
  cases ev with
  | other => rfl
  | checkoutSessionCompleted s =>
    by_cases h : strFalsy s.order_id = true
    · simp [stripeWebhookPost, h]
    · have hf : strFalsy s.order_id = false := by
        revert h; cases strFalsy s.order_id <;> simp
      have hcomp :
          ((fun o : OrderRow =>
              if o.id = s.order_id.getD "" then { o with status := .processing } else o) ∘
            (fun o : OrderRow =>
              if o.id = s.order_id.getD "" then { o with status := .processing } else o))
          = (fun o : OrderRow =>
              if o.id = s.order_id.getD "" then { o with status := .processing } else o) := by
        funext o
        by_cases ho : o.id = s.order_id.getD "" <;> simp [Function.comp, ho]
      simp [stripeWebhookPost, hf, hcomp, insertPayment_idem]

/-! ## C9: realtime insert de-duplication -/

/-- C9: the realtime `INSERT` handler is idempotent in the delivered
message: applied to a local list that already holds a message with the
same id, it returns the list unchanged, and re-applying the same event is
a no-op, so duplicate delivery never produces a duplicate entry. -/
theorem realtimeInsert_dedups (msgs : List ChatMessageRow) (m : ChatMessageRow)
    (h : ∃ x ∈ msgs, x.id = m.id) :
    realtimeInsert msgs m = msgs
    ∧ realtimeInsert (realtimeInsert msgs m) m = realtimeInsert msgs m := by
  have hany : (msgs.any fun x => x.id = m.id) = true := by
    obtain ⟨x, hx, hid⟩ := h
    exact List.any_eq_true.mpr ⟨x, hx, by simp [hid]⟩
  constructor
  · simp [realtimeInsert, hany]
  · simp [realtimeInsert, hany]

/-- Witness for C9 at a concrete local list and event. -/
theorem realtimeInsert_dedups_witness :
    (∃ x ∈ [({ id := "m1", customer_id := "C1", sender_id := "C1",
               sender_role := "customer", content := "Hi",
               created_at := 5 } : ChatMessageRow)],
        x.id = ({ id := "m1", customer_id := "C1", sender_id := "C1",
                  sender_role := "customer", content := "Hi",
                  created_at := 5 } : ChatMessageRow).id)
    ∧ (realtimeInsert
        [({ id := "m1", customer_id := "C1", sender_id := "C1",
            sender_role := "customer", content := "Hi",
            created_at := 5 } : ChatMessageRow)]
        { id := "m1", customer_id := "C1", sender_id := "C1",
          sender_role := "customer", content := "Hi", created_at := 5 }
        = [{ id := "m1", customer_id := "C1", sender_id := "C1",
             sender_role := "customer", content := "Hi", created_at := 5 }]
      ∧ realtimeInsert
          (realtimeInsert
            [({ id := "m1", customer_id := "C1", sender_id := "C1",
                sender_role := "customer", content := "Hi",
                created_at := 5 } : ChatMessageRow)]
            { id := "m1", customer_id := "C1", sender_id := "C1",
              sender_role := "customer", content := "Hi", created_at := 5 })
          { id := "m1", customer_id := "C1", sender_id := "C1",
            sender_role := "customer", content := "Hi", created_at := 5 }
        = realtimeInsert
            [({ id := "m1", customer_id := "C1", sender_id := "C1",
                sender_role := "customer", content := "Hi",
                created_at := 5 } : ChatMessageRow)]
            { id := "m1", customer_id := "C1", sender_id := "C1",
              sender_role := "customer", content := "Hi", created_at := 5 }) :=
  ⟨by decide, realtimeInsert_dedups _ _ (by decide)⟩

/-! ## C2: order status transitions -/

/-- C2 counterexample: `updateOrderStatus` does not reject the backward
transition `delivered → pending` — applied to an order in state
`delivered`, it sets the order's status to `pending` instead of
rejecting the request. -/
theorem updateOrderStatus_applies_delivered_to_pending :
    (updateOrderStatus
      { products := []
        orders := [{ id := "O1", customer_id := "C1", status := .delivered,
                     total_amount := 1, shipping_address := "addr" }]
        order_items := [], payments := [] }
      "O1" .pending).orders
      = [{ id := "O1", customer_id := "C1", status := .pending,
           total_amount := 1, shipping_address := "addr" }] := by
  decide

/-- C2 (amended): `updateOrderStatus` itself performs no transition
validation — it unconditionally writes the requested status onto every
order with the given id (whatever its current status, terminal states
included), and when no order matches it returns with the database
unchanged and no error signalled.  Only the admin page's UI restricts
which transitions are offered, and each offered button
(`pending→processing`, `processing→shipped`, `shipped→delivered`) is one
of the transitions the spec's state machine allows. -/
theorem updateOrderStatus_no_validation (db : DB) (oid : String)
    (s : OrderStatus) :
    (∀ o ∈ db.orders, o.id = oid →
      { o with status := s } ∈ (updateOrderStatus db oid s).orders)
    ∧ ((∀ o' ∈ db.orders, o'.id ≠ oid) → updateOrderStatus db oid s = db)
    ∧ (∀ prev next, adminStatusButton prev = some next →
        specAllowedTransition prev next = true) := by
  refine ⟨?_, ?_, ?_⟩
  · intro o ho hid
    exact List.mem_map.mpr ⟨o, ho, by simp [hid]⟩
  · intro hnone
    have : db.orders.map (fun o' : OrderRow =>
        if o'.id = oid then { o' with status := s } else o') = db.orders := by
      rw [show db.orders = db.orders.map id by simp]
      rw [List.map_map]
      refine List.map_congr_left ?_
      intro x hx
      simp [hnone x (by simpa using hx)]
    simp [updateOrderStatus, this]
  · intro prev next hb
    cases prev <;> cases next <;> simp_all [adminStatusButton, specAllowedTransition]

/-- Witness for C2's amended theorem, instantiated twice over a concrete
one-order database: once with the id of its (delivered) order, exercising
the unconditional status write, and once with an id no order carries,
exercising the unchanged-database/no-error branch. -/
theorem updateOrderStatus_no_validation_witness :
    ((∀ o ∈ [({ id := "O1", customer_id := "C1", status := .delivered,
                total_amount := 1, shipping_address := "addr" } : OrderRow)],
        o.id = "O1" →
        { o with status := OrderStatus.cancelled }
          ∈ (updateOrderStatus
              { products := []
                orders := [{ id := "O1", customer_id := "C1", status := .delivered,
                             total_amount := 1, shipping_address := "addr" }]
                order_items := [], payments := [] }
              "O1" .cancelled).orders)
      ∧ ((∀ o' ∈ [({ id := "O1", customer_id := "C1", status := .delivered,
                     total_amount := 1, shipping_address := "addr" } : OrderRow)],
            o'.id ≠ "O1") →
          updateOrderStatus
            { products := []
              orders := [{ id := "O1", customer_id := "C1", status := .delivered,
                           total_amount := 1, shipping_address := "addr" }]
              order_items := [], payments := [] }
            "O1" .cancelled
          = { products := []
              orders := [{ id := "O1", customer_id := "C1", status := .delivered,
                           total_amount := 1, shipping_address := "addr" }]
              order_items := [], payments := [] })
      ∧ (∀ prev next, adminStatusButton prev = some next →
          specAllowedTransition prev next = true))
    ∧ ((∀ o ∈ [({ id := "O1", customer_id := "C1", status := .delivered,
                  total_amount := 1, shipping_address := "addr" } : OrderRow)],
          o.id = "ZZ" →
          { o with status := OrderStatus.processing }
            ∈ (updateOrderStatus
                { products := []
                  orders := [{ id := "O1", customer_id := "C1", status := .delivered,
                               total_amount := 1, shipping_address := "addr" }]
                  order_items := [], payments := [] }
                "ZZ" .processing).orders)
      ∧ ((∀ o' ∈ [({ id := "O1", customer_id := "C1", status := .delivered,
                     total_amount := 1, shipping_address := "addr" } : OrderRow)],
            o'.id ≠ "ZZ") →
          updateOrderStatus
            { products := []
              orders := [{ id := "O1", customer_id := "C1", status := .delivered,
                           total_amount := 1, shipping_address := "addr" }]
              order_items := [], payments := [] }
            "ZZ" .processing
          = { products := []
              orders := [{ id := "O1", customer_id := "C1", status := .delivered,
                           total_amount := 1, shipping_address := "addr" }]
              order_items := [], payments := [] })
      ∧ (∀ prev next, adminStatusButton prev = some next →
          specAllowedTransition prev next = true)) :=
  ⟨updateOrderStatus_no_validation
      { products := []
        orders := [{ id := "O1", customer_id := "C1", status := .delivered,
                     total_amount := 1, shipping_address := "addr" }]
        order_items := [], payments := [] }
      "O1" .cancelled,
    updateOrderStatus_no_validation
      { products := []
        orders := [{ id := "O1", customer_id := "C1", status := .delivered,
                     total_amount := 1, shipping_address := "addr" }]
        order_items := [], payments := [] }
      "ZZ" .processing⟩

/-! ## C1: checkout creates a pending order with its items -/

/-- C1: on the success path, a checkout for a cart with N ≥ 1 items
creates exactly one order — in `pending` status — and exactly N order
items, and the sum over the created items of `unit_price * quantity`
equals the order's `total_amount`. -/
theorem checkout_creates_pending_order_with_items (db : DB)
    (cart : List CartItem) (uid : String) (addr : Option String)
    (n : String) (hc : cart ≠ []) (hu : uid ≠ "") :
    ∃ o : OrderRow, ∃ items : List OrderItemRow,
      checkoutPost db cart (some uid) addr n true true
        = ({ db with
              orders := db.orders ++ [o]
              order_items := db.order_items ++ items }, .ok n)
      ∧ o.status = .pending
      ∧ items.length = cart.length
      ∧ (items.map fun it => it.unit_price * it.quantity).sum = o.total_amount := by
  have h1 : cart.isEmpty = false := by
    cases cart with
    | nil => exact absurd rfl hc
    | cons a l => rfl
  have h2 : strFalsy (some uid) = false := by simp [strFalsy, hu]
  refine ⟨{ id := n, customer_id := uid, status := .pending,
            total_amount := cartTotal cart,
            shipping_address := addr.getD "" },
          cart.map (payloadRow n), ?_, rfl, by simp, ?_⟩
  · simp [checkoutPost, h1, h2]
  · rw [List.map_map, cartTotal_eq_sum]
    rfl

/-- Witness for C1: the spec's scenario cart
`[{productId: "P1", price: 19.99, qty: 2}]` yields a pending order whose
total is the items' `19.99 × 2 = 39.98`. -/
theorem checkout_creates_pending_order_with_items_witness :
    ([({ productId := some "P1", price := some (1999/100 : ℚ),
         quantity := some 2 } : CartItem)] ≠ [])
    ∧ ("U1" ≠ "")
    ∧ (∃ o : OrderRow, ∃ items : List OrderItemRow,
        checkoutPost { products := [], orders := [], order_items := [], payments := [] }
          [({ productId := some "P1", price := some (1999/100 : ℚ),
              quantity := some 2 } : CartItem)]
          (some "U1") none "O1" true true
          = ({ products := []
               orders := [] ++ [o]
               order_items := [] ++ items
               payments := [] }, .ok "O1")
        ∧ o.status = .pending
        ∧ items.length
            = [({ productId := some "P1", price := some (1999/100 : ℚ),
                  quantity := some 2 } : CartItem)].length
        ∧ (items.map fun it => it.unit_price * it.quantity).sum = o.total_amount) :=
  ⟨by decide, by decide,
    checkout_creates_pending_order_with_items
      { products := [], orders := [], order_items := [], payments := [] }
      [({ productId := some "P1", price := some (1999/100 : ℚ),
          quantity := some 2 } : CartItem)]
      "U1" none "O1" (by decide) (by decide)⟩

/-! ## C10: totals derived from the client payload only -/

/-- C10: the checkout handler derives the order's `total_amount` and every
item's `unit_price` exclusively from the client-supplied cart payload —
its response, created order rows and created item rows are unchanged
under any replacement of the product store — and a cart item with a
missing price records `unit_price = 0` (contributing 0 to the total)
while a missing quantity defaults to 1. -/
theorem checkout_uses_payload_only (db : DB) (P : List ProductRow)
    (cart : List CartItem) (uid saddr : Option String) (n : String)
    (oOk iOk : Bool) (i : CartItem) (hp : i.price = none)
    (hq : i.quantity = none) :
    ((checkoutPost { db with products := P } cart uid saddr n oOk iOk).2
       = (checkoutPost db cart uid saddr n oOk iOk).2)
    ∧ ((checkoutPost { db with products := P } cart uid saddr n oOk iOk).1.orders
       = (checkoutPost db cart uid saddr n oOk iOk).1.orders)
    ∧ ((checkoutPost { db with products := P } cart uid saddr n oOk iOk).1.order_items
       = (checkoutPost db cart uid saddr n oOk iOk).1.order_items)
    ∧ cartTotal cart = (cart.map fun j => itemPrice j * itemQty j).sum
    ∧ itemPrice i = 0
    ∧ (payloadRow n i).unit_price = 0
    ∧ (payloadRow n i).quantity = 1 := by
  refine ⟨?_, ?_, ?_, cartTotal_eq_sum cart, ?_, ?_, ?_⟩
  · unfold checkoutPost
    split
    · rfl
    · split
      · rfl
      · split
        · rfl
        · split <;> rfl
  · unfold checkoutPost
    split
    · rfl
    · split
      · rfl
      · split
        · rfl
        · split <;> rfl
  · unfold checkoutPost
    split
    · rfl
    · split
      · rfl
      · split
        · rfl
        · split <;> rfl
  · simp [itemPrice, hp]
  · simp [payloadRow, itemPrice, hp]
  · simp [payloadRow, itemQty, hq]

/-- Witness for C10 at a concrete store, cart and item. -/
theorem checkout_uses_payload_only_witness :
    (({ productId := some "P2", price := none, quantity := none } : CartItem).price
        = none)
    ∧ (({ productId := some "P2", price := none, quantity := none } : CartItem).quantity
        = none)
    ∧ (((checkoutPost
          { products := [{ id := "P2", price := 7, stock_quantity := 3, is_active := true }],
            orders := [], order_items := [], payments := [] }
          [({ productId := some "P2", price := none, quantity := none } : CartItem)]
          (some "U1") none "O1" true true).2
        = (checkoutPost
            { products := [], orders := [], order_items := [], payments := [] }
            [({ productId := some "P2", price := none, quantity := none } : CartItem)]
            (some "U1") none "O1" true true).2)
      ∧ ((checkoutPost
          { products := [{ id := "P2", price := 7, stock_quantity := 3, is_active := true }],
            orders := [], order_items := [], payments := [] }
          [({ productId := some "P2", price := none, quantity := none } : CartItem)]
          (some "U1") none "O1" true true).1.orders
        = (checkoutPost
            { products := [], orders := [], order_items := [], payments := [] }
            [({ productId := some "P2", price := none, quantity := none } : CartItem)]
            (some "U1") none "O1" true true).1.orders)
      ∧ ((checkoutPost
          { products := [{ id := "P2", price := 7, stock_quantity := 3, is_active := true }],
            orders := [], order_items := [], payments := [] }
          [({ productId := some "P2", price := none, quantity := none } : CartItem)]
          (some "U1") none "O1" true true).1.order_items
        = (checkoutPost
            { products := [], orders := [], order_items := [], payments := [] }
            [({ productId := some "P2", price := none, quantity := none } : CartItem)]
            (some "U1") none "O1" true true).1.order_items)
      ∧ cartTotal [({ productId := some "P2", price := none, quantity := none } : CartItem)]
          = ([({ productId := some "P2", price := none, quantity := none } : CartItem)].map
              fun j => itemPrice j * itemQty j).sum
      ∧ itemPrice { productId := some "P2", price := none, quantity := none } = 0
      ∧ (payloadRow "O1" { productId := some "P2", price := none, quantity := none }).unit_price = 0
      ∧ (payloadRow "O1" { productId := some "P2", price := none, quantity := none }).quantity = 1) :=
  ⟨rfl, rfl,
    checkout_uses_payload_only
      { products := [], orders := [], order_items := [], payments := [] }
      [{ id := "P2", price := 7, stock_quantity := 3, is_active := true }]
      [({ productId := some "P2", price := none, quantity := none } : CartItem)]
      (some "U1") none "O1" true true
      { productId := some "P2", price := none, quantity := none } rfl rfl⟩

/-! ## C6: checkout is not all-or-nothing -/

/-- C6 counterexample: when the order-items insert fails, the checkout
handler returns a 500 but the already-inserted `pending` order is left
behind with no items — neither "order and all items persisted" nor
"nothing persisted" holds. -/
theorem checkout_item_failure_leaves_orphan_order :
    (checkoutPost { products := [], orders := [], order_items := [], payments := [] }
        [({ productId := some "P1", price := some 10, quantity := some 1 } : CartItem)]
        (some "U1") none "O1" true false).2
      = .serverError "Failed to create order items"
    ∧ ((checkoutPost { products := [], orders := [], order_items := [], payments := [] }
        [({ productId := some "P1", price := some 10, quantity := some 1 } : CartItem)]
        (some "U1") none "O1" true false).1.orders.map fun o => (o.id, o.status))
      = [("O1", .pending)]
    ∧ (checkoutPost { products := [], orders := [], order_items := [], payments := [] }
        [({ productId := some "P1", price := some 10, quantity := some 1 } : CartItem)]
        (some "U1") none "O1" true false).1.order_items
      = [] := by
  refine ⟨rfl, ?_, rfl⟩
  decide

/-- C6 (amended): the order insert and the items insert are two separate
store calls, not one all-or-nothing transaction.  If the order insert
fails, nothing is persisted; but if the items insert fails, the handler
reports an error while the already-persisted `pending` order remains in
the store with no items (an orphan). -/
theorem checkout_not_atomic (db : DB) (cart : List CartItem) (uid : String)
    (addr : Option String) (n : String) (iOk : Bool)
    (hc : cart ≠ []) (hu : uid ≠ "") :
    (checkoutPost db cart (some uid) addr n false iOk
       = (db, .serverError "Failed to create order"))
    ∧ (∃ o : OrderRow,
        checkoutPost db cart (some uid) addr n true false
          = ({ db with orders := db.orders ++ [o] },
             .serverError "Failed to create order items")
        ∧ o.status = .pending) := by
  have h1 : cart.isEmpty = false := by
    cases cart with
    | nil => exact absurd rfl hc
    | cons a l => rfl
  have h2 : strFalsy (some uid) = false := by simp [strFalsy, hu]
  constructor
  · simp [checkoutPost, h1, h2]
  · exact ⟨{ id := n, customer_id := uid, status := .pending,
             total_amount := cartTotal cart,
             shipping_address := addr.getD "" },
           by simp [checkoutPost, h1, h2], rfl⟩

/-- Witness for C6's amended theorem at a concrete database and cart. -/
theorem checkout_not_atomic_witness :
    ([({ productId := some "P1", price := some 10, quantity := some 1 } : CartItem)] ≠ [])
    ∧ ("U1" ≠ "")
    ∧ ((checkoutPost { products := [], orders := [], order_items := [], payments := [] }
          [({ productId := some "P1", price := some 10, quantity := some 1 } : CartItem)]
          (some "U1") none "O1" false true
        = ({ products := [], orders := [], order_items := [], payments := [] },
           .serverError "Failed to create order"))
      ∧ (∃ o : OrderRow,
          checkoutPost { products := [], orders := [], order_items := [], payments := [] }
            [({ productId := some "P1", price := some 10, quantity := some 1 } : CartItem)]
            (some "U1") none "O1" true false
            = ({ products := []
                 orders := [] ++ [o]
                 order_items := []
                 payments := [] },
               .serverError "Failed to create order items")
          ∧ o.status = .pending)) :=
  ⟨by decide, by decide,
    checkout_not_atomic
      { products := [], orders := [], order_items := [], payments := [] }
      [({ productId := some "P1", price := some 10, quantity := some 1 } : CartItem)]
      "U1" none "O1" true (by decide) (by decide)⟩

/-! ## C4: payment confirmation handling -/

/-- C7 counterexample: the messages route checks only JavaScript
truthiness of `content`, not trimmed emptiness — a request whose content
is the whitespace-only string `"   "` (which trims to `""`) passes the
check and the message IS inserted, instead of being rejected. -/
theorem messagesPost_accepts_whitespace_content :
    ("   ".data.all Char.isWhitespace = true)
    ∧ ("   " ≠ "")
    ∧ messagesPost [] (some "C1") (some "   ") true
        = ([{ customer_id := "C1", content := "   " }],
           .ok { customer_id := "C1", content := "   " }) := by
  refine ⟨by decide, by decide, rfl⟩

/-- C7 (amended): the messages route appends the message exactly when
both `customer_id` and `content` are truthy, i.e. present and non-empty
as strings: empty or missing content is rejected with a 400 and nothing
inserted, but content that is non-empty yet whitespace-only passes the
check and is inserted as-is (no trimming is performed). -/
theorem messagesPost_truthiness_only (msgs : List CustomerMessageRow)
    (cid content : String) (hc : cid ≠ "") (hct : content ≠ "") :
    (messagesPost msgs (some cid) (some content) true
      = (msgs ++ [{ customer_id := cid, content := content }],
         .ok { customer_id := cid, content := content }))
    ∧ (∀ c : String, messagesPost msgs (some c) (some "") true = (msgs, .badRequest))
    ∧ (∀ c : String, messagesPost msgs (some c) none true = (msgs, .badRequest)) := by
  refine ⟨?_, ?_, ?_⟩
  · simp [messagesPost, strFalsy, hc, hct]
  · intro c
    simp [messagesPost, strFalsy]
  · intro c
    simp [messagesPost, strFalsy]

/-- Witness for C7's amended theorem at a concrete message list. -/
theorem messagesPost_truthiness_only_witness :
    ("C1" ≠ "")
    ∧ ("Hi" ≠ "")
    ∧ ((messagesPost [] (some "C1") (some "Hi") true
        = ([] ++ [{ customer_id := "C1", content := "Hi" }],
           .ok { customer_id := "C1", content := "Hi" }))
      ∧ (∀ c : String, messagesPost [] (some c) (some "") true = ([], .badRequest))
      ∧ (∀ c : String, messagesPost [] (some c) none true = ([], .badRequest))) :=
  ⟨by decide, by decide,
    messagesPost_truthiness_only [] "C1" "Hi" (by decide) (by decide)⟩

/-! ## C8: thread listing, view path vs fallback path -/

theorem dedupAcc_take_extends (l : List String) : ∀ (seen : List String) (n : Nat),
    ∃ t, dedupAcc seen l = dedupAcc seen (l.take n) ++ t := by
  induction l with
  | nil =>
    intro seen n
    exact ⟨[], by simp [dedupAcc]⟩
  | cons c rest ih =>
    intro seen n
    cases n with
    | zero => exact ⟨dedupAcc seen (c :: rest), by simp [dedupAcc]⟩
    | succ m =>
      rw [List.take_succ_cons]
      by_cases hc : c ∈ seen
      · simpa [dedupAcc, hc] using ih seen m
      · obtain ⟨t, ht⟩ := ih (c :: seen) m
        exact ⟨t, by simp [dedupAcc, hc, ht]⟩

theorem dedupAcc_nodup (l : List String) : ∀ seen : List String,
    (dedupAcc seen l).Nodup ∧ ∀ c ∈ dedupAcc seen l, c ∉ seen := by
  induction l with
  | nil =>
    intro seen
    simp [dedupAcc]
  | cons c rest ih =>
    intro seen
    by_cases hc : c ∈ seen
    · simpa [dedupAcc, hc] using ih seen
    · have h2 := ih (c :: seen)
      simp only [dedupAcc, hc, if_false]
      constructor
      · refine List.nodup_cons.mpr ⟨?_, h2.1⟩
        intro hmem
        exact (h2.2 c hmem) (List.mem_cons_self c seen)
      · intro d hd
        rcases List.mem_cons.mp hd with hdc | hdt
        · exact hdc ▸ hc
        · intro hds
          exact (h2.2 d hdt) (List.mem_cons_of_mem c hds)

/-- C8 (amended): the fallback derivation path of `loadThreads` shares
the view path's ordering and de-duplication — on the first page it
returns a prefix of what the view path returns (same order of distinct
thread ids), and on every page it returns at most `THREAD_PAGE_SIZE`
thread ids with no id repeated — but it is not equal to the view path in
general: it examines only a window of `2 * THREAD_PAGE_SIZE` most-recent
messages, so threads whose messages all lie outside the window are
missing from its result. -/
theorem loadThreadsFallback_refines_view (ms : List ChatMessageRow) (page : Nat) :
    (∃ t, loadThreadsView ms 0 = loadThreadsFallback ms 0 ++ t)
    ∧ (loadThreadsFallback ms page).Nodup
    ∧ (loadThreadsFallback ms page).length ≤ THREAD_PAGE_SIZE := by
  refine ⟨?_, ?_, ?_⟩
  · obtain ⟨t, ht⟩ :=
      dedupAcc_take_extends (ms.map fun m => m.customer_id) [] (2 * THREAD_PAGE_SIZE)
    refine ⟨t.take (THREAD_PAGE_SIZE
      - (dedupFirst ((ms.map fun m => m.customer_id).take (2 * THREAD_PAGE_SIZE))).length), ?_⟩
    simp only [loadThreadsView, loadThreadsFallback, Nat.zero_mul, List.drop_zero,
      dedupFirst, List.map_take]
    rw [ht, List.take_append_eq_append_take]
  · have h := (dedupAcc_nodup
      (((ms.drop (page * THREAD_PAGE_SIZE)).take (2 * THREAD_PAGE_SIZE)).map
        fun m => m.customer_id) []).1
    exact (List.take_sublist _ _).nodup h
  · simp [loadThreadsFallback]

/-- C8 counterexample: a message log whose 40 most recent messages all
belong to thread `A`, followed by one older message of thread `B`.  On
page 0 the view path returns `[A, B]` but the fallback path — scanning
only the 40-message window — returns `[A]`: the two paths do not return
the same result. -/
theorem loadThreads_paths_disagree :
    loadThreadsFallback
      (((List.range 40).map fun k =>
          ({ id := "m", customer_id := "A", sender_id := "A",
             sender_role := "customer", content := "x",
             created_at := 100 - k } : ChatMessageRow))
        ++ [{ id := "b", customer_id := "B", sender_id := "B",
              sender_role := "customer", content := "y", created_at := 1 }]) 0
      = ["A"]
    ∧ loadThreadsView
        (((List.range 40).map fun k =>
            ({ id := "m", customer_id := "A", sender_id := "A",
               sender_role := "customer", content := "x",
               created_at := 100 - k } : ChatMessageRow))
          ++ [{ id := "b", customer_id := "B", sender_id := "B",
                sender_role := "customer", content := "y", created_at := 1 }]) 0
      = ["A", "B"]
    ∧ (["A"] : List String) ≠ ["A", "B"] := by
  refine ⟨by decide, by decide, by decide⟩

end SupplementStore
